import Mathlib

/-!
Verification of `pib_init` from `src/wasm-build/php/docker-build-files/pib_eval.c`:

```c
bool EMSCRIPTEN_KEEPALIVE pib_init(zend_object *object)
{
    bool a = object->handlers->dtor_obj != zend_objects_destroy_object;
    return a;
}
```

The function dereferences the object pointer, follows the `handlers` pointer to
the object's handler table, reads its `dtor_obj` slot and compares it by pointer
identity against the address of the engine's standard destruction handler
`zend_objects_destroy_object`.

Modelling choices.  Function pointers and data pointers are addresses (`Nat`),
with `0` the NULL pointer.  `zend_objects_destroy_object` is a function defined
by the engine, so after linking its address is some fixed nonzero value; we pick
`1`.  A `zend_object` carries its GC header fields, its handle, a class-entry
pointer, the `handlers` pointer and a properties pointer; a
`zend_object_handlers` table carries the representative handler slots of the
engine's handler table (the ones beyond `dtor_obj` only matter for the frame
and noninterference claims).  Memory is a pair of partial maps from addresses
to objects and to handler tables.  Besides the pure comparison (`pib_init`),
an instrumented interpreter (`pib_init_exec`) performs the two loads of the C
statement explicitly, threads the memory state and records an event trace, so
that absence of writes, of extra reads and of handler invocations are provable
statements rather than conventions.
-/

/-- A machine pointer / function pointer, as an address.  `0` is NULL. -/
abbrev Ptr := Nat

/-- The NULL pointer / NULL function pointer. -/
def NULL_PTR : Ptr := 0

/-- Address of the engine's standard destruction handler
`zend_objects_destroy_object`.  It is a function defined by the engine, so its
link-time address is nonzero; the concrete value is otherwise irrelevant. -/
def zend_objects_destroy_object : Ptr := 1

/-- The object handler table (`zend_object_handlers`): the `dtor_obj` slot the
code reads, together with representative sibling slots of the real structure
(offset, `free_obj`, `clone_obj`, property accessors, ...), which matter only
for showing that `pib_init` ignores them. -/
structure ZendObjectHandlers where
  offset : Nat
  free_obj : Ptr
  dtor_obj : Ptr
  clone_obj : Ptr
  read_property : Ptr
  write_property : Ptr
  get_properties : Ptr
  get_class_name : Ptr
  compare : Ptr
  cast_object : Ptr
  get_gc : Ptr
deriving DecidableEq, Repr

/-- A managed object (`zend_object`): GC header fields, the object handle, the
class-entry pointer, the pointer to its handler table, and the properties
pointer. -/
structure ZendObject where
  gc_refcount : Nat
  gc_type_info : Nat
  handle : Nat
  ce : Ptr
  handlers : Ptr
  properties : Ptr
deriving DecidableEq, Repr

/-- Runtime memory: partial maps from addresses to objects and to handler
tables.  An address not in the map is invalid to dereference. -/
structure Heap where
  objects : Ptr → Option ZendObject
  tables : Ptr → Option ZendObjectHandlers

/-- Observable events of a run: a read of a `zend_object` field, a read of a
handler-table field, a store to memory, or a call through a function pointer.
The interpreter below emits exactly the events the C statement performs. -/
inductive ObjField where
  | gc_refcount | gc_type_info | handle | ce | handlers | properties
deriving DecidableEq, Repr

inductive TblField where
  | offset | free_obj | dtor_obj | clone_obj | read_property | write_property
  | get_properties | get_class_name | compare | cast_object | get_gc
deriving DecidableEq, Repr

inductive Event where
  | readObjField (addr : Ptr) (field : ObjField)
  | readTblField (addr : Ptr) (field : TblField)
  | writeMem (addr : Ptr)
  | callFn (f : Ptr)
deriving DecidableEq, Repr

/-- Is the event a store to memory? -/
def Event.isWrite : Event → Bool
  | Event.writeMem _ => true
  | _ => false

/-- Is the event a call through a function pointer? -/
def Event.isCall : Event → Bool
  | Event.callFn _ => true
  | _ => false

/-- Is the event a read of a handler-table field? -/
def Event.isTblRead : Event → Bool
  | Event.readTblField _ _ => true
  | _ => false

/-- Is the event a read of a `zend_object` field? -/
def Event.isObjRead : Event → Bool
  | Event.readObjField _ _ => true
  | _ => false

/-- The pure content of `pib_init`, line 20 of `pib_eval.c`, once the two loads
have resolved the object and its handler table:
`object->handlers->dtor_obj != zend_objects_destroy_object`. -/
def pib_init (object : ZendObject) (handlersTbl : ZendObjectHandlers) : Bool :=
  handlersTbl.dtor_obj != zend_objects_destroy_object

/-- Instrumented run of `pib_init` on a raw handle `p`.  It performs the two
loads of the C statement in order (`object->handlers`, then `->dtor_obj`),
returns the boolean together with the final memory and the event trace, and
is undefined (`none`) when a dereference hits an invalid address — the
undefined behavior the caller's precondition rules out.  No null check is
performed: `p = 0` is just one invalid address among the rest. -/
def pib_init_exec (h : Heap) (p : Ptr) : Option (Bool × Heap × List Event) :=
  match h.objects p with
  | none => none
  | some object =>
    match h.tables object.handlers with
    | none => none
    | some t =>
      some (t.dtor_obj != zend_objects_destroy_object, h,
        [Event.readObjField p ObjField.handlers,
         Event.readTblField object.handlers TblField.dtor_obj])

/-! Concrete sample data used by the witnesses. -/

/-- A handler table whose `dtor_obj` is the standard handler. -/
def sampleTblDefault : ZendObjectHandlers :=
  { offset := 16, free_obj := 2, dtor_obj := zend_objects_destroy_object,
    clone_obj := 3, read_property := 4, write_property := 5,
    get_properties := 6, get_class_name := 7, compare := 8,
    cast_object := 9, get_gc := 10 }

/-- A handler table whose `dtor_obj` is a custom handler at address 42. -/
def sampleTblCustom : ZendObjectHandlers :=
  { sampleTblDefault with dtor_obj := 42 }

/-- A handler table whose `dtor_obj` slot is NULL. -/
def sampleTblNull : ZendObjectHandlers :=
  { sampleTblDefault with dtor_obj := NULL_PTR }

/-- A sample object whose handler table lives at address 200. -/
def sampleObj : ZendObject :=
  { gc_refcount := 1, gc_type_info := 8, handle := 7, ce := 100,
    handlers := 200, properties := 0 }

/-- A sample heap: `sampleObj` at address 5, its table (`sampleTblCustom`)
at address 200. -/
def sampleHeap : Heap :=
  { objects := fun p => if p = 5 then some sampleObj else none,
    tables := fun q => if q = 200 then some sampleTblCustom else none }

/-! The claims. -/

/-- C1: for every non-null handle resolving to an object and its handler table,
`pib_init` returns true if and only if the table's `dtor_obj` reference is not
identical to the address of the standard destruction handler
`zend_objects_destroy_object`; and the instrumented run returns exactly this
boolean. -/
theorem pib_init_iff_dtor_ne_default (h : Heap) (p : Ptr)
    (object : ZendObject) (t : ZendObjectHandlers)
    (ho : h.objects p = some object) (ht : h.tables object.handlers = some t) :
    (pib_init object t = true ↔ t.dtor_obj ≠ zend_objects_destroy_object) ∧
    ∃ h' tr, pib_init_exec h p = some (pib_init object t, h', tr) := by
  constructor
  · simp [pib_init, bne_iff_ne]
  · exact ⟨h, [Event.readObjField p ObjField.handlers,
        Event.readTblField object.handlers TblField.dtor_obj],
      by simp [pib_init_exec, ho, ht, pib_init]⟩

/-- C1 witness: the sample heap at handle 5 with the custom table. -/
theorem pib_init_iff_dtor_ne_default_witness :
    sampleHeap.objects 5 = some sampleObj ∧
    sampleHeap.tables sampleObj.handlers = some sampleTblCustom ∧
    ((pib_init sampleObj sampleTblCustom = true ↔
        sampleTblCustom.dtor_obj ≠ zend_objects_destroy_object) ∧
      ∃ h' tr, pib_init_exec sampleHeap 5 =
        some (pib_init sampleObj sampleTblCustom, h', tr)) :=
  ⟨by decide, by decide,
    pib_init_iff_dtor_ne_default sampleHeap 5 sampleObj sampleTblCustom
      (by decide) (by decide)⟩

/-- C2: for every object whose registered destruction handler is identical to
the standard handler `zend_objects_destroy_object`, `pib_init` returns
false. -/
theorem pib_init_default_false (object : ZendObject) (t : ZendObjectHandlers)
    (hd : t.dtor_obj = zend_objects_destroy_object) :
    pib_init object t = false := by
  simp [pib_init, hd]

/-- C2 witness: the sample object with the default handler table. -/
theorem pib_init_default_false_witness :
    sampleTblDefault.dtor_obj = zend_objects_destroy_object ∧
    pib_init sampleObj sampleTblDefault = false :=
  ⟨by decide, pib_init_default_false sampleObj sampleTblDefault (by decide)⟩

/-- C3: for every object whose destruction handler has been overridden to any
reference other than `zend_objects_destroy_object`, `pib_init` returns true. -/
theorem pib_init_custom_true (object : ZendObject) (t : ZendObjectHandlers)
    (hd : t.dtor_obj ≠ zend_objects_destroy_object) :
    pib_init object t = true := by
  simp [pib_init, bne_iff_ne, hd]

/-- C3 witness: the sample object with the custom handler table (handler at
address 42). -/
theorem pib_init_custom_true_witness :
    sampleTblCustom.dtor_obj ≠ zend_objects_destroy_object ∧
    pib_init sampleObj sampleTblCustom = true :=
  ⟨by decide, pib_init_custom_true sampleObj sampleTblCustom (by decide)⟩

/-- C4: determinism / idempotence.  A second call on the memory produced by a
first call (the object unmodified, since the call changes nothing) returns the
same boolean, memory and trace. -/
theorem pib_init_idempotent (h : Heap) (p : Ptr) (b : Bool) (h' : Heap)
    (tr : List Event) (hrun : pib_init_exec h p = some (b, h', tr)) :
    pib_init_exec h' p = some (b, h', tr) := by
  unfold pib_init_exec at hrun
  cases ho : h.objects p with
  | none => simp [ho] at hrun
  | some object =>
    cases ht : h.tables object.handlers with
    | none => simp [ho, ht] at hrun
    | some t =>
      simp only [ho, ht, Option.some.injEq, Prod.mk.injEq] at hrun
      obtain ⟨hb, hh, htr⟩ := hrun
      subst hb; subst hh; subst htr
      simp [pib_init_exec, ho, ht]

/-- C4 witness: running twice on the sample heap at handle 5. -/
theorem pib_init_idempotent_witness :
    pib_init_exec sampleHeap 5 =
      some (true, sampleHeap,
        [Event.readObjField 5 ObjField.handlers,
         Event.readTblField 200 TblField.dtor_obj]) ∧
    pib_init_exec sampleHeap 5 =
      some (true, sampleHeap,
        [Event.readObjField 5 ObjField.handlers,
         Event.readTblField 200 TblField.dtor_obj]) :=
  ⟨rfl,
    pib_init_idempotent sampleHeap 5 true sampleHeap
      [Event.readObjField 5 ObjField.handlers,
       Event.readTblField 200 TblField.dtor_obj] rfl⟩

/-- C5: no side effects.  Every successful run returns the memory it was given,
unchanged, and its trace contains no store: the object, its handler table and
all other state are left intact, and nothing is created or mutated. -/
theorem pib_init_no_side_effects (h : Heap) (p : Ptr) (b : Bool) (h' : Heap)
    (tr : List Event) (hrun : pib_init_exec h p = some (b, h', tr)) :
    h' = h ∧ tr.filter Event.isWrite = [] := by
  unfold pib_init_exec at hrun
  cases ho : h.objects p with
  | none => simp [ho] at hrun
  | some object =>
    cases ht : h.tables object.handlers with
    | none => simp [ho, ht] at hrun
    | some t =>
      simp only [ho, ht, Option.some.injEq, Prod.mk.injEq] at hrun
      obtain ⟨-, hh, htr⟩ := hrun
      subst htr
      exact ⟨hh.symm, rfl⟩

/-- C5 witness: the sample run leaves the heap unchanged and writes nothing. -/
theorem pib_init_no_side_effects_witness :
    pib_init_exec sampleHeap 5 =
      some (true, sampleHeap,
        [Event.readObjField 5 ObjField.handlers,
         Event.readTblField 200 TblField.dtor_obj]) ∧
    (sampleHeap = sampleHeap ∧
      ([Event.readObjField 5 ObjField.handlers,
        Event.readTblField 200 TblField.dtor_obj]).filter Event.isWrite = []) :=
  ⟨rfl,
    pib_init_no_side_effects sampleHeap 5 true sampleHeap
      [Event.readObjField 5 ObjField.handlers,
       Event.readTblField 200 TblField.dtor_obj] rfl⟩

/-- C6: totality under the caller's precondition.  Given a non-null handle that
resolves to an object with a valid handler table, the run always succeeds with
a boolean and the unchanged memory — no error branch is reachable.  The
interpreter contains no null test: validity rests entirely on the
precondition. -/
theorem pib_init_total (h : Heap) (p : Ptr) (object : ZendObject)
    (t : ZendObjectHandlers) (hp : p ≠ NULL_PTR)
    (ho : h.objects p = some object)
    (ht : h.tables object.handlers = some t) :
    ∃ b tr, pib_init_exec h p = some (b, h, tr) := by
  refine ⟨t.dtor_obj != zend_objects_destroy_object,
    [Event.readObjField p ObjField.handlers,
     Event.readTblField object.handlers TblField.dtor_obj], ?_⟩
  simp [pib_init_exec, ho, ht]

/-- C6 witness: handle 5 of the sample heap satisfies the precondition and the
run succeeds. -/
theorem pib_init_total_witness :
    (5 : Ptr) ≠ NULL_PTR ∧
    sampleHeap.objects 5 = some sampleObj ∧
    sampleHeap.tables sampleObj.handlers = some sampleTblCustom ∧
    ∃ b tr, pib_init_exec sampleHeap 5 = some (b, sampleHeap, tr) :=
  ⟨by decide, by decide, by decide,
    pib_init_total sampleHeap 5 sampleObj sampleTblCustom (by decide)
      (by decide) (by decide)⟩

/-- C7: read footprint.  The trace of a successful run is exactly the load of
the object's `handlers` pointer followed by the load of the table's `dtor_obj`
slot; hence exactly one handler-table field is read — the destruction-handler
slot — the only object field read is the `handlers` pointer needed to reach the
table, and no store occurs. -/
theorem pib_init_single_read (h : Heap) (p : Ptr) (object : ZendObject)
    (t : ZendObjectHandlers) (ho : h.objects p = some object)
    (ht : h.tables object.handlers = some t) :
    ∃ b, pib_init_exec h p =
        some (b, h, [Event.readObjField p ObjField.handlers,
                     Event.readTblField object.handlers TblField.dtor_obj]) ∧
      ∀ tr, pib_init_exec h p = some (b, h, tr) →
        tr.filter Event.isTblRead =
            [Event.readTblField object.handlers TblField.dtor_obj] ∧
        tr.filter Event.isObjRead =
            [Event.readObjField p ObjField.handlers] ∧
        tr.filter Event.isWrite = [] := by
  refine ⟨t.dtor_obj != zend_objects_destroy_object, ?_, ?_⟩
  · simp [pib_init_exec, ho, ht]
  · intro tr hrun
    simp only [pib_init_exec, ho, ht, Option.some.injEq, Prod.mk.injEq] at hrun
    obtain ⟨-, -, htr⟩ := hrun
    subst htr
    refine ⟨rfl, rfl, rfl⟩

/-- C7 witness: the sample run reads exactly the `handlers` pointer and the
`dtor_obj` slot. -/
theorem pib_init_single_read_witness :
    sampleHeap.objects 5 = some sampleObj ∧
    sampleHeap.tables sampleObj.handlers = some sampleTblCustom ∧
    ∃ b, pib_init_exec sampleHeap 5 =
        some (b, sampleHeap,
          [Event.readObjField 5 ObjField.handlers,
           Event.readTblField sampleObj.handlers TblField.dtor_obj]) ∧
      ∀ tr, pib_init_exec sampleHeap 5 = some (b, sampleHeap, tr) →
        tr.filter Event.isTblRead =
            [Event.readTblField sampleObj.handlers TblField.dtor_obj] ∧
        tr.filter Event.isObjRead =
            [Event.readObjField 5 ObjField.handlers] ∧
        tr.filter Event.isWrite = [] :=
  ⟨by decide, by decide,
    pib_init_single_read sampleHeap 5 sampleObj sampleTblCustom
      (by decide) (by decide)⟩

/-- C8: a NULL `dtor_obj` slot is a reference distinct from the (nonzero)
address of `zend_objects_destroy_object`, so `pib_init` returns true on it:
"overridden to any other handler" includes the absent handler. -/
theorem pib_init_null_dtor_true (object : ZendObject) (t : ZendObjectHandlers)
    (hd : t.dtor_obj = NULL_PTR) :
    pib_init object t = true := by
  simp [pib_init, hd, NULL_PTR, zend_objects_destroy_object]

/-- C8 witness: the sample table with a NULL `dtor_obj` slot. -/
theorem pib_init_null_dtor_true_witness :
    sampleTblNull.dtor_obj = NULL_PTR ∧
    pib_init sampleObj sampleTblNull = true :=
  ⟨by decide, pib_init_null_dtor_true sampleObj sampleTblNull (by decide)⟩

/-- C9: noninterference.  The result of `pib_init` depends only on the identity
of the `dtor_obj` slot: two objects whose handler tables agree on `dtor_obj`
get equal results, whatever their other fields and handler slots. -/
theorem pib_init_depends_only_on_dtor (o1 o2 : ZendObject)
    (t1 t2 : ZendObjectHandlers) (hd : t1.dtor_obj = t2.dtor_obj) :
    pib_init o1 t1 = pib_init o2 t2 := by
  simp [pib_init, hd]

/-- C9 witness: two objects and tables differing everywhere except `dtor_obj`
give the same result. -/
theorem pib_init_depends_only_on_dtor_witness :
    sampleTblCustom.dtor_obj =
      ({ offset := 0, free_obj := 11, dtor_obj := 42, clone_obj := 12,
         read_property := 13, write_property := 14, get_properties := 15,
         get_class_name := 16, compare := 17, cast_object := 18,
         get_gc := 19 } : ZendObjectHandlers).dtor_obj ∧
    pib_init sampleObj sampleTblCustom =
      pib_init { gc_refcount := 9, gc_type_info := 0, handle := 3, ce := 77,
                 handlers := 300, properties := 4 }
        { offset := 0, free_obj := 11, dtor_obj := 42, clone_obj := 12,
          read_property := 13, write_property := 14, get_properties := 15,
          get_class_name := 16, compare := 17, cast_object := 18,
          get_gc := 19 } :=
  ⟨by decide,
    pib_init_depends_only_on_dtor sampleObj
      { gc_refcount := 9, gc_type_info := 0, handle := 3, ce := 77,
        handlers := 300, properties := 4 }
      sampleTblCustom
      { offset := 0, free_obj := 11, dtor_obj := 42, clone_obj := 12,
        read_property := 13, write_property := 14, get_properties := 15,
        get_class_name := 16, compare := 17, cast_object := 18,
        get_gc := 19 }
      (by decide)⟩

/-- C10: never-invokes.  The trace of every successful run contains no call
event at all; in particular neither the object's own destruction handler nor
`zend_objects_destroy_object` is ever invoked — both are only compared as
references, so checking an object can never trigger its destruction. -/
theorem pib_init_never_calls (h : Heap) (p : Ptr) (b : Bool) (h' : Heap)
    (tr : List Event) (object : ZendObject) (t : ZendObjectHandlers)
    (ho : h.objects p = some object) (ht : h.tables object.handlers = some t)
    (hrun : pib_init_exec h p = some (b, h', tr)) :
    tr.filter Event.isCall = [] ∧
    Event.callFn t.dtor_obj ∉ tr ∧
    Event.callFn zend_objects_destroy_object ∉ tr := by
  simp only [pib_init_exec, ho, ht, Option.some.injEq, Prod.mk.injEq] at hrun
  obtain ⟨-, -, htr⟩ := hrun
  subst htr
  refine ⟨rfl, by simp, by simp⟩

/-- C10 witness: the sample run invokes nothing. -/
theorem pib_init_never_calls_witness :
    pib_init_exec sampleHeap 5 =
      some (true, sampleHeap,
        [Event.readObjField 5 ObjField.handlers,
         Event.readTblField 200 TblField.dtor_obj]) ∧
    (([Event.readObjField 5 ObjField.handlers,
        Event.readTblField 200 TblField.dtor_obj]).filter Event.isCall = [] ∧
      Event.callFn sampleTblCustom.dtor_obj ∉
        [Event.readObjField 5 ObjField.handlers,
         Event.readTblField 200 TblField.dtor_obj] ∧
      Event.callFn zend_objects_destroy_object ∉
        [Event.readObjField 5 ObjField.handlers,
         Event.readTblField 200 TblField.dtor_obj]) :=
  ⟨rfl,
    pib_init_never_calls sampleHeap 5 true sampleHeap
      [Event.readObjField 5 ObjField.handlers,
       Event.readTblField 200 TblField.dtor_obj]
      sampleObj sampleTblCustom (by decide) (by decide) rfl⟩
